import Mathlib

/-!
Shallow embedding of the human-in-the-loop DSPy demo repository
(files human_in_the_loop.py, input_provider.py, web_app.py).

Conventions of the embedding:
* Python dictionaries become insertion-ordered association lists
  (List (String × _)); dict assignment is update-or-append, dict.pop
  removes the entry for a key.  Real dictionaries never hold a key twice,
  which the update-or-append insert preserves.
* An asyncio.Future of a string becomes Option String: none while
  pending, some v once set_result v has run.  set_result on an already
  resolved future raises InvalidStateError and leaves the value alone.
* Python exceptions become the inductive PyExc.  CancelledError derives
  from BaseException but not from Exception (Python 3.8+), so a clause
  of the form except Exception does not catch it; the other constructors
  all model Exception subclasses.
* A function that can raise returns its result in Except PyExc, or a
  pair of the mutated state and an Except payload when state mutated
  before the raise must survive.
-/

inductive PyExc where
  | exc (msg : String)
  | key_error
  | attribute_error
  | type_error
  | invalid_state_error
  | cancelled_error
deriving DecidableEq, Repr

deriving instance DecidableEq for Except

/-- True exactly when the exception is an instance of class Exception,
hence caught by a clause of the form except Exception.  CancelledError
derives only from BaseException. -/
def PyExc.isExceptionInstance : PyExc → Bool
  | .cancelled_error => false
  | _ => true

/-- Rendering str(e) for a worker exception constructed with a message,
as in ValueError("bad input"). -/
def PyExc.pyStr : PyExc → String
  | .exc m => m
  | _ => ""

/-- Ordered dictionary assignment d[k] = v: update in place when the key
exists, append otherwise (Python dictionaries keep insertion order). -/
def dictInsert {β : Type} (k : String) (v : β) : List (String × β) → List (String × β)
  | [] => [(k, v)]
  | (k₁, v₁) :: rest => if k = k₁ then (k, v) :: rest else (k₁, v₁) :: dictInsert k v rest

/-- Dictionary d.pop(k, None): drop the entry for k.  On lists that
represent real dictionaries the key occurs at most once. -/
def dict_pop {β : Type} (k : String) (l : List (String × β)) : List (String × β) :=
  l.filter (fun p => !(p.1 == k))

/- ------------------------------------------------------------------
human_in_the_loop.py
------------------------------------------------------------------ -/

/-- HumanInputRequest: the question plus the response future
(self.question, self._response_future). -/
structure HumanInputRequest where
  question : String
  slot : Option String
deriving DecidableEq, Repr

/-- HumanInputRequest.set_response: future.set_result.  Setting an
already resolved future raises InvalidStateError and changes nothing. -/
def HumanInputRequest.set_response (req : HumanInputRequest) (r : String) :
    Except PyExc HumanInputRequest :=
  match req.slot with
  | none => .ok { req with slot := some r }
  | some _ => .error .invalid_state_error

/-- HumanInputRequest.response: await the future.  The value the waiter
receives once it resumes — none while still suspended. -/
def HumanInputRequest.response (req : HumanInputRequest) : Option String :=
  req.slot

/-- One value of the nested pending_requests map built by
create_queue_requester: the dictionary with keys request, question and
sent. -/
structure ReqEntry where
  request : HumanInputRequest
  question : String
  sent : Bool
deriving DecidableEq, Repr

/-- The per-session inner map, request_id to entry. -/
abbrev SessionMap := List (String × ReqEntry)

/-- The pending_requests map as create_queue_requester builds it:
session_id to inner map. -/
abbrev PendingMap := List (String × SessionMap)

/-- Events travelling through app.state.request_queue (the dictionaries
pushed by queue_requester and run_agent). -/
inductive Event where
  | human_input (session_id id question : String)
  | task_result_complete (task_id order : String)
  | task_result_error (task_id error : String)
deriving DecidableEq, Repr

/-- An asyncio task handle as far as start_agent observes it:
task.done() and whether task.cancel() has been called. -/
structure TaskHandle where
  done : Bool
  cancelled : Bool
deriving DecidableEq, Repr

/-- One SSE client queue of web_app.py.  cid stands for the object
identity of the asyncio.Queue; broken abstracts a put_nowait call that
raises for this client; buf is the queued items in order. -/
structure ClientQueue where
  cid : Nat
  broken : Bool
  buf : List Event
deriving DecidableEq, Repr

/-- The mutable application state of web_app.py: app.state.running_tasks,
app.state.pending_requests, app.state.request_queue and
app.state.sse_clients. -/
structure AppState where
  running_tasks : List (String × TaskHandle)
  pending_requests : PendingMap
  request_queue : List Event
  sse_clients : List ClientQueue
deriving DecidableEq, Repr

/-- The session initialisation in create_queue_requester: if session_id
not in pending_requests then pending_requests[session_id] = {}. -/
def create_queue_requester_init (session_id : String) (m : PendingMap) : PendingMap :=
  match List.lookup session_id m with
  | some _ => m
  | none => dictInsert session_id [] m

/-- The body of queue_requester from create_queue_requester: store the
fresh request under pending_requests[session_id][request_id], push the
human_input event onto the request queue, then mark the entry as sent.
The missing-session branch is unreachable in the source because
create_queue_requester pre-creates the session slot. -/
def queue_requester (session_id request_id question : String) (st : AppState) : AppState :=
  match List.lookup session_id st.pending_requests with
  | none => st
  | some inner =>
      let entry : ReqEntry :=
        { request := { question := question, slot := none }, question := question, sent := false }
      let inner₁ := dictInsert request_id entry inner
      let st₁ := { st with
        pending_requests := dictInsert session_id inner₁ st.pending_requests,
        request_queue := st.request_queue ++ [Event.human_input session_id request_id question] }
      match List.lookup session_id st₁.pending_requests with
      | none => st₁
      | some inner₂ =>
          match List.lookup request_id inner₂ with
          | none => st₁
          | some e =>
              { st₁ with pending_requests :=
                  (dictInsert session_id (dictInsert request_id { e with sent := true } inner₂)
                    st₁.pending_requests) }

/-- ask_human up to its suspension point: build the HumanInputRequest
and run the requester, which registers it and emits the event; the call
then suspends on request.response until the slot is written. -/
def ask_human_start (session_id request_id question : String) (st : AppState) : AppState :=
  queue_requester session_id request_id question
    { st with pending_requests := create_queue_requester_init session_id st.pending_requests }

/-- The answer slot of the request stored at (session, request_id):
some s when the entry exists and its slot is s, none when absent. -/
def pending_slot (session_id request_id : String) (m : PendingMap) : Option (Option String) :=
  match List.lookup session_id m with
  | none => none
  | some inner =>
      match List.lookup request_id inner with
      | none => none
      | some e => some e.request.slot

/- ------------------------------------------------------------------
web_app.py: the respond endpoint
------------------------------------------------------------------ -/

/-- provide_human_response (POST /respond).  The source checks
request_id against the top level keys of app.state.pending_requests —
which, as populated by create_queue_requester, are session ids whose
values are inner maps — then reads the literal key request on the inner
value, pops the top level entry, and calls provide_response on the
found value, an attribute no stored object defines (HumanInputRequest
defines set_response).  Returns the mutated state and either the
acknowledgement body or the exception raised. -/
def provide_human_response (request_id response : String) (st : AppState) :
    AppState × Except PyExc String :=
  match List.lookup request_id st.pending_requests with
  | none => (st, .ok "received")
  | some inner =>
      match List.lookup "request" inner with
      | none => (st, .error .key_error)
      | some _ =>
          ({ st with pending_requests := dict_pop request_id st.pending_requests },
           .error .attribute_error)

/- ------------------------------------------------------------------
web_app.py: the task supervisor (start_agent and run_agent)
------------------------------------------------------------------ -/

/-- The loop at the top of start_agent: for every snapshot entry of
app.state.running_tasks, call task.cancel() when the task is not done,
and pop the entry; the second component logs the ids whose tasks were
cancelled, in loop order. -/
def start_cancel_loop :
    List (String × TaskHandle) → List (String × TaskHandle) → List String →
    List (String × TaskHandle) × List String
  | [], running, log => (running, log)
  | (tid, t) :: rest, running, log =>
      start_cancel_loop rest (dict_pop tid running) (if t.done then log else log ++ [tid])

/-- A freshly created asyncio task: not done, not cancelled. -/
def fresh_task : TaskHandle := { done := false, cancelled := false }

/-- start_agent (POST /agent/start): cancel and pop every existing
running task, clear the whole pending_requests map, then register the
one new task under the fresh task_id.  Also returns the ids of the
tasks on which cancel was called. -/
def start_agent (new_task_id : String) (st : AppState) : AppState × List String :=
  let res := start_cancel_loop st.running_tasks st.running_tasks []
  let st₁ := { st with running_tasks := res.1, pending_requests := [] }
  ({ st₁ with running_tasks := dictInsert new_task_id fresh_task st₁.running_tasks }, res.2)

/-- How the awaited worker call inside run_agent ends: the agent
returns a result, or an exception is delivered at the await point
(cancellation of the task delivers CancelledError there). -/
inductive WorkerOutcome where
  | success (order : String)
  | raises (e : PyExc)
deriving DecidableEq, Repr

/-- run_agent: try awaiting the agent; on success push the complete
task_result event; on an exception caught by the except Exception
clause push the error task_result event; in every case the finally
block pops task_id from running_tasks.  CancelledError is not an
Exception instance, so it skips the except clause and propagates
(second component some e) after the finally block has run. -/
def run_agent (task_id : String) (o : WorkerOutcome) (st : AppState) :
    AppState × Option PyExc :=
  match o with
  | .success order =>
      let st₁ := { st with
        request_queue := st.request_queue ++ [Event.task_result_complete task_id order] }
      ({ st₁ with running_tasks := dict_pop task_id st₁.running_tasks }, none)
  | .raises e =>
      if e.isExceptionInstance then
        let st₁ := { st with
          request_queue := st.request_queue ++ [Event.task_result_error task_id e.pyStr] }
        ({ st₁ with running_tasks := dict_pop task_id st₁.running_tasks }, none)
      else
        ({ st with running_tasks := dict_pop task_id st.running_tasks }, some e)

/-- The events run_agent itself appended to the shared queue. -/
def published_events (task_id : String) (o : WorkerOutcome) (st : AppState) : List Event :=
  List.drop st.request_queue.length (run_agent task_id o st).1.request_queue

/- ------------------------------------------------------------------
web_app.py: the event broadcaster
------------------------------------------------------------------ -/

/-- client_queue.put_nowait(item): append to the buffer, or raise when
this client queue fails pushes. -/
def put_nowait (q : ClientQueue) (e : Event) : Except PyExc ClientQueue :=
  if q.broken then .error (.exc "put failed") else .ok { q with buf := q.buf ++ [e] }

/-- The dead-client cleanup in the except arm of event_broadcaster:
if client_queue in sse_clients then sse_clients.remove(client_queue) —
remove the first occurrence, do nothing when absent. -/
def remove_client (cid : Nat) : List ClientQueue → List ClientQueue
  | [] => []
  | c :: rest => if c.cid = cid then rest else c :: remove_client cid rest

/-- One pass of the inner for loop of event_broadcaster for the
snapshot element q: try put_nowait; on success the push mutates the
queue object (reflected in the live list through its identity cid); on
failure the dead queue is removed from the live list.  The bare except
arm catches every exception, so this step is total. -/
def broadcast_step (e : Event) (live : List ClientQueue) (q : ClientQueue) : List ClientQueue :=
  match put_nowait q e with
  | .ok q₁ => live.map (fun c => if c.cid = q.cid then q₁ else c)
  | .error _ => remove_client q.cid live

/-- One iteration of the while loop of event_broadcaster after an event
has been taken from the request queue: iterate over a snapshot copy
(sse_clients[:]) of the client list while mutating the live list. -/
def event_broadcaster_iteration (e : Event) (clients : List ClientQueue) : List ClientQueue :=
  List.foldl (broadcast_step e) clients clients

/- ------------------------------------------------------------------
web_app.py: the SSE stream generator
------------------------------------------------------------------ -/

/-- json.dumps applied to the event dictionaries pushed through the
queue (field order as constructed in the source; payload strings are
assumed not to need escaping). -/
def json_dumps : Event → String
  | .human_input sid i q =>
      "\x7b\"type\": \"human_input\", \"session_id\": \"" ++ sid ++ "\", \"id\": \"" ++ i
        ++ "\", \"question\": \"" ++ q ++ "\"\x7d"
  | .task_result_complete tid order =>
      "\x7b\"type\": \"task_result\", \"task_id\": \"" ++ tid
        ++ "\", \"status\": \"complete\", \"order\": \"" ++ order ++ "\"\x7d"
  | .task_result_error tid err =>
      "\x7b\"type\": \"task_result\", \"task_id\": \"" ++ tid
        ++ "\", \"status\": \"error\", \"error\": \"" ++ err ++ "\"\x7d"

/-- The timeout, in seconds, handed to asyncio.wait_for in the generate
loop of event_stream (timeout=1.0). -/
def event_stream_timeout : Rat := 1

/-- One iteration of the generate loop of event_stream for a connected
client: some item when the queue yielded an item within the timeout, in
which case the item is serialised as an SSE data frame; none when
asyncio.wait_for raised TimeoutError after event_stream_timeout
seconds, in which case the heartbeat frame with the empty JSON object
is yielded. -/
def generate_iteration (got : Option Event) : String :=
  match got with
  | some item => "data: " ++ json_dumps item ++ "\n\n"
  | none => "data: \x7b\x7d\n\n"

/- ------------------------------------------------------------------
input_provider.py: SSEInputProvider
------------------------------------------------------------------ -/

/-- One value of SSEInputProvider.pending_requests: the dictionary with
keys future, question, metadata (elided) and sent. -/
structure SSEEntry where
  future : Option String
  question : String
  sent : Bool
deriving DecidableEq, Repr

/-- The flat pending_requests map of SSEInputProvider: request_id to
entry. -/
abbrev SSEPending := List (String × SSEEntry)

/-- SSEInputProvider.provide_response: when the request_id is present,
schedule future.set_result(response) on the loop; the scheduled call
writes the future when it is still pending (a second scheduled write
would raise InvalidStateError inside the loop and leave the value
alone, invisible to this caller).  When the request_id is absent,
nothing happens. -/
def sse_provide_response (request_id response : String) (p : SSEPending) : SSEPending :=
  match List.lookup request_id p with
  | none => p
  | some e =>
      match e.future with
      | none => dictInsert request_id { e with future := some response } p
      | some _ => p

/- ------------------------------------------------------------------
web_app.py: module level initialisation
------------------------------------------------------------------ -/

/-- The positional parameters of create_queue_requester, none of which
has a default value. -/
def create_queue_requester_params : List String :=
  ["request_queue", "pending_requests", "session_id"]

/-- The arguments passed at web_app.py line 60. -/
def web_app_create_queue_requester_args : List String :=
  ["app.state.request_queue", "app.state.pending_requests"]

/-- Python call binding for a function with only positional parameters
and no defaults: a missing or extra positional argument raises
TypeError before the body runs. -/
def python_positional_call (args params : List String) : Except PyExc Unit :=
  if args.length < params.length then .error .type_error
  else if params.length < args.length then .error .type_error
  else .ok ()

/-- What of web_app.py is in place once the module body has run. -/
structure WebAppModule where
  state_ready : Bool
  agent_created : Bool
  endpoints_registered : Bool
  broadcaster_startable : Bool
deriving DecidableEq, Repr

/-- The module body of web_app.py in statement order: the app.state
assignments succeed, then line 60 binds the call
create_queue_requester(app.state.request_queue,
app.state.pending_requests); if that call raises, the import aborts and
nothing after it — the agent, the route registrations, the lifespan
that starts the broadcaster — ever runs. -/
def web_app_module_body : Except PyExc WebAppModule :=
  match python_positional_call web_app_create_queue_requester_args
      create_queue_requester_params with
  | .error e => .error e
  | .ok _ =>
      .ok { state_ready := true, agent_created := true,
            endpoints_registered := true, broadcaster_startable := true }

/-- The application state right after the app.state assignments: empty
task index, empty pending map, empty queue, no clients. -/
def empty_app_state : AppState :=
  { running_tasks := [], pending_requests := [], request_queue := [], sse_clients := [] }

/- ------------------------------------------------------------------
Helper lemmas
------------------------------------------------------------------ -/

lemma lookup_dict_pop_self {β : Type} (k : String) (l : List (String × β)) :
    List.lookup k (dict_pop k l) = none := by
  induction l with
  | nil => rfl
  | cons p rest ih =>
      rcases p with ⟨a, b⟩
      by_cases h : a = k
      · have hb : (a == k) = true := by simpa using h
        simpa [dict_pop, List.filter_cons, hb] using ih
      · have hb : (a == k) = false := by simpa using h
        have hk : (k == a) = false := by
          have : ¬ k = a := fun hkk => h hkk.symm
          simpa using this
        have step : List.lookup k ((a, b) :: dict_pop k rest) = List.lookup k (dict_pop k rest) := by
          simp [List.lookup, hk]
        simp only [dict_pop, List.filter_cons, hb, Bool.not_false, if_true]
        exact step.trans ih

/- ------------------------------------------------------------------
Theorems about the embedded program
------------------------------------------------------------------ -/

/-- C8.  The answer slot is write-once: once the slot of a
HumanInputRequest holds v, a second set_response is rejected with
InvalidStateError, the stored answer is still v, and a waiter reading
the slot still receives v. -/
theorem answer_slot_write_once (q v w : String) :
    HumanInputRequest.set_response { question := q, slot := some v } w
        = Except.error PyExc.invalid_state_error
    ∧ HumanInputRequest.response { question := q, slot := some v } = some v := by
  exact ⟨rfl, rfl⟩

/-- C9.  A quiet connection still produces output: when the per-client
queue yields nothing within the one-second timeout of asyncio.wait_for,
the generate loop of event_stream emits the heartbeat frame with the
empty JSON payload instead of blocking, and the bound is exactly 1.0
seconds. -/
theorem quiet_stream_yields_heartbeat :
    generate_iteration none = "data: \x7b\x7d\n\n" ∧ event_stream_timeout = 1 := by
  exact ⟨rfl, rfl⟩

/-- C10.  Loading the web application module fails: line 60 of
web_app.py passes two positional arguments to create_queue_requester,
which declares three positional parameters without defaults, so module
initialisation raises TypeError and no endpoint or broadcaster is ever
set up. -/
theorem web_app_import_raises_type_error :
    web_app_module_body = Except.error PyExc.type_error
    ∧ ∀ m : WebAppModule, web_app_module_body ≠ Except.ok m := by
  refine ⟨rfl, fun m h => ?_⟩
  rw [show web_app_module_body = Except.error PyExc.type_error from rfl] at h
  exact Except.noConfusion h

/-- C2.  Terminal event policy of run_agent: a run whose await ends in
CancelledError (the task was superseded and cancelled by start_agent)
publishes nothing, because CancelledError is not caught by the except
Exception clause; a run finishing on its own publishes exactly one
task_result event carrying its task_id — complete on success, error on
a worker exception. -/
theorem run_agent_terminal_event_publication (task_id order msg : String) (st : AppState) :
    published_events task_id (.raises .cancelled_error) st = []
    ∧ published_events task_id (.success order) st = [Event.task_result_complete task_id order]
    ∧ published_events task_id (.raises (.exc msg)) st = [Event.task_result_error task_id msg] := by
  refine ⟨?_, ?_, ?_⟩ <;>
    simp [published_events, run_agent, PyExc.isExceptionInstance, PyExc.pyStr, List.drop_left]

/-- C4.  Worker failure handling in run_agent: a worker exception e
(an Exception instance) yields exactly one task_result event with the
task_id of the run, status error, and str(e) as the message; and on
every outcome — success, failure or a propagating exception — the
finally block removes task_id from running_tasks. -/
theorem run_agent_error_event_and_cleanup (task_id msg : String) (st : AppState) :
    published_events task_id (.raises (.exc msg)) st = [Event.task_result_error task_id msg]
    ∧ ∀ o : WorkerOutcome,
        List.lookup task_id ((run_agent task_id o st).1.running_tasks) = none := by
  constructor
  · simp [published_events, run_agent, PyExc.isExceptionInstance, PyExc.pyStr, List.drop_left]
  · intro o
    rcases o with order | e
    · simpa [run_agent] using lookup_dict_pop_self task_id st.running_tasks
    · rcases he : e.isExceptionInstance with _ | _ <;>
        simpa [run_agent, he] using lookup_dict_pop_self task_id st.running_tasks

/-- C5.  Resolving an id that is absent from the pending map is a
harmless no-op: the respond endpoint returns the received
acknowledgement without raising and leaves the whole application state
— in particular every suspended waiter — untouched, and likewise
SSEInputProvider.provide_response on an unknown id changes nothing. -/
theorem resolve_unknown_id_acknowledged_noop (request_id answer : String) (st : AppState)
    (p : SSEPending)
    (h1 : List.lookup request_id st.pending_requests = none)
    (h2 : List.lookup request_id p = none) :
    provide_human_response request_id answer st = (st, Except.ok "received")
    ∧ sse_provide_response request_id answer p = p := by
  constructor
  · unfold provide_human_response
    rw [h1]
  · unfold sse_provide_response
    rw [h2]

/-- Witness for resolve_unknown_id_acknowledged_noop: a state holding
one pending request under session s1, resolved with an id nothing ever
produced. -/
theorem resolve_unknown_id_acknowledged_noop_witness :
    provide_human_response "zz" "x" (ask_human_start "s1" "r1" "size?" empty_app_state)
        = (ask_human_start "s1" "r1" "size?" empty_app_state, Except.ok "received")
    ∧ sse_provide_response "zz" "x" [] = [] :=
  resolve_unknown_id_acknowledged_noop "zz" "x"
    (ask_human_start "s1" "r1" "size?" empty_app_state) [] (by decide) (by decide)

/-- C3.  Session isolation of the respond endpoint: a request r pending
under session A is never resolved by a respond call made on behalf of a
different session B, even when B uses the identical request id r; the
call acknowledges, the state is unchanged, and the answer slot of
(A, r) stays unwritten.  The hypothesis hr records that a request id is
never also a session id — both are independently drawn fresh uuid4
values in the source, and the top-level keys of the nested pending map
are exactly the session ids. -/
theorem foreign_resolve_preserves_other_session_request
    (st : AppState) (A B r answer : String)
    (hAB : A ≠ B)
    (hA : pending_slot A r st.pending_requests = some none)
    (hr : List.lookup r st.pending_requests = none) :
    provide_human_response r answer st = (st, Except.ok "received")
    ∧ pending_slot A r (provide_human_response r answer st).1.pending_requests = some none := by
  have h : provide_human_response r answer st = (st, Except.ok "received") := by
    unfold provide_human_response
    rw [hr]
  exact ⟨h, by rw [h]; exact hA⟩

/-- Witness for foreign_resolve_preserves_other_session_request: two
distinct sessions a and b, each holding a pending request with the
identical id r1; resolving r1 leaves the request of session a pending
and unwritten. -/
theorem foreign_resolve_preserves_other_session_request_witness :
    provide_human_response "r1" "large"
        (ask_human_start "b" "r1" "q2" (ask_human_start "a" "r1" "q1" empty_app_state))
      = (ask_human_start "b" "r1" "q2" (ask_human_start "a" "r1" "q1" empty_app_state),
         Except.ok "received")
    ∧ pending_slot "a" "r1"
        (provide_human_response "r1" "large"
          (ask_human_start "b" "r1" "q2"
            (ask_human_start "a" "r1" "q1" empty_app_state))).1.pending_requests
      = some none :=
  foreign_resolve_preserves_other_session_request
    (ask_human_start "b" "r1" "q2" (ask_human_start "a" "r1" "q1" empty_app_state))
    "a" "b" "r1" "large" (by decide) (by decide) (by decide)

/-- C1 fails on the code; this theorem evaluates the program at the
failing input.  ask under session s1 registers request r1 and suspends;
the observer submits the answer large for r1; the respond endpoint
checks r1 against the top-level keys of the nested pending map — which
are session ids — finds nothing, acknowledges with received, and
changes no state, so the answer slot of (s1, r1) is still unwritten and
the suspended ask never returns.  (Had the lookup succeeded, the
endpoint would call provide_response, an attribute HumanInputRequest
does not define — it defines set_response.) -/
theorem ask_resolve_mismatch_leaves_slot_unwritten :
    pending_slot "s1" "r1" (ask_human_start "s1" "r1" "size?" empty_app_state).pending_requests
        = some none
    ∧ (provide_human_response "r1" "large" (ask_human_start "s1" "r1" "size?" empty_app_state)).2
        = Except.ok "received"
    ∧ (provide_human_response "r1" "large" (ask_human_start "s1" "r1" "size?" empty_app_state)).1
        = ask_human_start "s1" "r1" "size?" empty_app_state := by
  refine ⟨?_, ?_, ?_⟩ <;> decide

lemma start_cancel_loop_running (s : List (String × TaskHandle)) :
    ∀ (r : List (String × TaskHandle)) (log : List String),
      (start_cancel_loop s r log).1
        = r.filter (fun p => !(s.any (fun q => p.1 == q.1))) := by
  induction s with
  | nil =>
      intro r log
      simp [start_cancel_loop]
  | cons a rest ih =>
      intro r log
      rcases a with ⟨k, t⟩
      rw [start_cancel_loop, ih]
      rw [show dict_pop k r = r.filter (fun p => !(p.1 == k)) from rfl, List.filter_filter]
      apply List.filter_congr
      intro p _
      simp only [List.any_cons, Bool.not_or]
      rw [Bool.and_comm]

lemma start_cancel_loop_self_empties (s : List (String × TaskHandle)) (log : List String) :
    (start_cancel_loop s s log).1 = [] := by
  rw [start_cancel_loop_running]
  apply List.filter_eq_nil_iff.mpr
  intro p hp
  have h : s.any (fun q => p.1 == q.1) = true := List.any_eq_true.mpr ⟨p, hp, by simp⟩
  simp [h]

lemma start_cancel_loop_log (s : List (String × TaskHandle)) :
    ∀ (r : List (String × TaskHandle)) (log : List String),
      (start_cancel_loop s r log).2
        = log ++ (s.filter (fun p => !p.2.done)).map Prod.fst := by
  induction s with
  | nil =>
      intro r log
      simp [start_cancel_loop]
  | cons a rest ih =>
      intro r log
      rcases a with ⟨k, t⟩
      rw [start_cancel_loop, ih]
      rcases hd : t.done with _ | _
      · simp [List.filter_cons, hd, List.append_assoc]
      · simp [List.filter_cons, hd]

/-- C6.  The start endpoint resets the coordination state: every task
in the running index that is not yet done receives a cancel call, the
index is emptied and then holds exactly the one new task, the whole
pending-request map is cleared — including requests of sessions
unrelated to the new run — and nothing else (event queue, client list)
is touched. -/
theorem start_agent_state_reset (new_task_id : String) (st : AppState) :
    (start_agent new_task_id st).1.running_tasks = [(new_task_id, fresh_task)]
    ∧ (start_agent new_task_id st).1.pending_requests = []
    ∧ (start_agent new_task_id st).1.request_queue = st.request_queue
    ∧ (start_agent new_task_id st).1.sse_clients = st.sse_clients
    ∧ (start_agent new_task_id st).2
        = (st.running_tasks.filter (fun p => !p.2.done)).map Prod.fst := by
  refine ⟨?_, rfl, rfl, rfl, ?_⟩
  · show dictInsert new_task_id fresh_task
        (start_cancel_loop st.running_tasks st.running_tasks []).1 = _
    rw [start_cancel_loop_self_empties]
    rfl
  · show (start_cancel_loop st.running_tasks st.running_tasks []).2 = _
    rw [start_cancel_loop_log]
    rfl

lemma remove_client_append_cons (q : ClientQueue) (d t : List ClientQueue)
    (hd : ∀ c ∈ d, c.cid ≠ q.cid) :
    remove_client q.cid (d ++ q :: t) = d ++ t := by
  induction d with
  | nil => simp [remove_client]
  | cons c rest ih =>
      have hc : c.cid ≠ q.cid := hd c (List.mem_cons_self c rest)
      show remove_client q.cid (c :: (rest ++ q :: t)) = c :: (rest ++ t)
      rw [remove_client, if_neg hc, ih (fun x hx => hd x (List.mem_cons_of_mem c hx))]

lemma replace_append_cons (q q₁ : ClientQueue) (d t : List ClientQueue)
    (hd : ∀ c ∈ d, c.cid ≠ q.cid) (ht : ∀ c ∈ t, c.cid ≠ q.cid) :
    (d ++ q :: t).map (fun c => if c.cid = q.cid then q₁ else c) = d ++ q₁ :: t := by
  rw [List.map_append, List.map_cons, if_pos rfl]
  have h1 : d.map (fun c => if c.cid = q.cid then q₁ else c) = d := by
    have := List.map_congr_left (l := d)
      (f := fun c => if c.cid = q.cid then q₁ else c) (g := id)
      (fun c hc => by simp [hd c hc])
    simpa using this
  have h2 : t.map (fun c => if c.cid = q.cid then q₁ else c) = t := by
    have := List.map_congr_left (l := t)
      (f := fun c => if c.cid = q.cid then q₁ else c) (g := id)
      (fun c hc => by simp [ht c hc])
    simpa using this
  rw [h1, h2]

lemma broadcast_foldl_characterisation (e : Event) :
    ∀ (s d : List ClientQueue),
      ((d ++ s).map ClientQueue.cid).Nodup →
      List.foldl (broadcast_step e) (d ++ s) s
        = d ++ (s.filter (fun q => !q.broken)).map (fun q => { q with buf := q.buf ++ [e] }) := by
  intro s
  induction s with
  | nil =>
      intro d _
      simp
  | cons q t ih =>
      intro d h
      have hparts : ((d.map ClientQueue.cid).Nodup ∧ (q.cid :: t.map ClientQueue.cid).Nodup)
          ∧ ∀ a ∈ d.map ClientQueue.cid, a ∉ (q.cid :: t.map ClientQueue.cid) := by
        have h' := h
        rw [List.map_append, List.nodup_append] at h'
        exact ⟨⟨h'.1, by simpa using h'.2.1⟩, by simpa [List.Disjoint] using h'.2.2⟩
      have hd : ∀ c ∈ d, c.cid ≠ q.cid := by
        intro c hc heq
        exact (hparts.2 c.cid (List.mem_map_of_mem ClientQueue.cid hc))
          (by simp [heq])
      have ht : ∀ c ∈ t, c.cid ≠ q.cid := by
        intro c hc heq
        have hq : q.cid ∉ t.map ClientQueue.cid := (List.nodup_cons.mp hparts.1.2).1
        exact hq (by
          rw [← heq]
          exact List.mem_map_of_mem ClientQueue.cid hc)
      rw [List.foldl_cons]
      by_cases hb : q.broken
      · have h1 : broadcast_step e (d ++ q :: t) q = d ++ t := by
          rw [show broadcast_step e (d ++ q :: t) q
              = remove_client q.cid (d ++ q :: t) by simp [broadcast_step, put_nowait, hb]]
          exact remove_client_append_cons q d t hd
        have hnd : ((d ++ t).map ClientQueue.cid).Nodup := by
          rw [List.map_append, List.nodup_append]
          refine ⟨hparts.1.1, (List.nodup_cons.mp hparts.1.2).2, ?_⟩
          intro a ha
          exact fun hat => (hparts.2 a ha) (List.mem_cons_of_mem _ hat)
        rw [h1, ih d hnd, List.filter_cons, hb]
        simp
      · have h1 : broadcast_step e (d ++ q :: t) q
            = (d ++ [({ q with buf := q.buf ++ [e] } : ClientQueue)]) ++ t := by
          rw [show broadcast_step e (d ++ q :: t) q
              = (d ++ q :: t).map
                  (fun c => if c.cid = q.cid then { q with buf := q.buf ++ [e] } else c) by
            simp [broadcast_step, put_nowait, hb]]
          rw [replace_append_cons q _ d t hd ht]
          simp
        have hnd : (((d ++ [({ q with buf := q.buf ++ [e] } : ClientQueue)]) ++ t).map
            ClientQueue.cid).Nodup := by
          have hsame : ((d ++ [({ q with buf := q.buf ++ [e] } : ClientQueue)]) ++ t).map
              ClientQueue.cid = (d ++ q :: t).map ClientQueue.cid := by
            simp [List.map_append]
          rw [hsame]
          exact h
        have hstep := ih (d ++ [({ q with buf := q.buf ++ [e] } : ClientQueue)]) hnd
        rw [h1, hstep, List.filter_cons, if_pos (by simp [hb])]
        simp [List.append_assoc]

/-- C7.  One broadcaster pass over the client list, for an event taken
off the shared queue: every queue whose push fails is pruned from the
subscriber list, every other subscribed queue — including those after a
failing one — still receives the event appended to its buffer, and the
pass is a total function, the bare except around each push and the
outer except around the iteration keeping every exception out of the
loop.  Client queues are distinct objects, so their identities are
assumed pairwise distinct. -/
theorem broadcaster_prunes_dead_and_delivers (e : Event) (clients : List ClientQueue)
    (h : (clients.map ClientQueue.cid).Nodup) :
    event_broadcaster_iteration e clients
      = (clients.filter (fun q => !q.broken)).map (fun q => { q with buf := q.buf ++ [e] }) := by
  have := broadcast_foldl_characterisation e clients [] (by simpa using h)
  simpa [event_broadcaster_iteration] using this

/-- Witness for broadcaster_prunes_dead_and_delivers: three clients of
which the middle one fails pushes; the broadcast drops it and delivers
the event to the other two. -/
theorem broadcaster_prunes_dead_and_delivers_witness :
    event_broadcaster_iteration (Event.human_input "s1" "r1" "size?")
        [{ cid := 0, broken := false, buf := [] },
         { cid := 1, broken := true, buf := [] },
         { cid := 2, broken := false, buf := [] }]
      = [{ cid := 0, broken := false, buf := [Event.human_input "s1" "r1" "size?"] },
         { cid := 2, broken := false, buf := [Event.human_input "s1" "r1" "size?"] }] :=
  broadcaster_prunes_dead_and_delivers (Event.human_input "s1" "r1" "size?")
    [{ cid := 0, broken := false, buf := [] },
     { cid := 1, broken := true, buf := [] },
     { cid := 2, broken := false, buf := [] }] (by decide)
